import Mathlib

/-!
Shallow embedding of the todo persistence-and-query core of the
spicy-todo-app backend (src/api/pyfast-api): the data model (models.py),
the in-memory store operations and their relational counterparts
(database.py), and the filtering/statistics layer (main.py).

Modelling conventions:
- Dates, times of day and timestamps are Nats (only equality and order
  matter to the code under study).
- The uuid generator and the wall clock are explicit parameters: an id
  stream gen and timestamp arguments mirroring each datetime.now() call
  in source order.
- Python exceptions become Except results; every stateful operation
  returns a result paired with the new store state.
-/

namespace SpicyTodo

/-- Priority enum from models.py (low, medium, high as a str enum). -/
inductive Priority where
  | low
  | medium
  | high
deriving DecidableEq

/-- String value of a Priority, as the str-enum value in models.py. -/
def Priority.str : Priority → String
  | .low => "low"
  | .medium => "medium"
  | .high => "high"

/-- The Todo model of models.py: id, text, priority, completed, optional
due_date and reminder_time, created_at and updated_at. -/
structure Todo where
  id : String
  text : String
  priority : Priority
  completed : Bool
  due_date : Option Nat
  reminder_time : Option Nat
  created_at : Nat
  updated_at : Nat
deriving DecidableEq

/-- TodoCreate payload (validated): same caller-suppliable fields as
TodoBase, with the defaults of models.py. -/
structure TodoCreate where
  text : String
  priority : Priority := .medium
  completed : Bool := false
  due_date : Option Nat := none
  reminder_time : Option Nat := none
deriving DecidableEq

/-- TodoUpdate payload: every field optional; none means the field was
not set in the partial payload (pydantic exclude_unset semantics). -/
structure TodoUpdate where
  text : Option String := none
  priority : Option Priority := none
  completed : Option Bool := none
  due_date : Option Nat := none
  reminder_time : Option Nat := none
deriving DecidableEq

/-- Encoding of the fixed sample datetimes of initialize_sample_data
(all in January 2024): day, hour, minute packed preserving order. -/
def dt (day hour minute : Nat) : Nat :=
  (day * 100 + hour) * 100 + minute

/-- The in-memory branch of initialize_sample_data in database.py: the
eight sample todos as actually stored. The sample dicts carry due_date
and reminder_time values, but the Todo(...) constructor call at lines
135-142 passes neither field, so the stored todos have both absent.
Ids come from the uuid stream gen. -/
def initializeSampleData (gen : Nat → String) : List Todo :=
  [ ⟨gen 0, "Learn React hooks and state management", .high, false, none, none, dt 15 10 0, dt 15 10 0⟩,
    ⟨gen 1, "Build a spicy todo application", .high, true, none, none, dt 14 9 30, dt 15 11 45⟩,
    ⟨gen 2, "Add beautiful animations and transitions", .medium, false, none, none, dt 13 14 20, dt 13 14 20⟩,
    ⟨gen 3, "Implement dark mode toggle", .low, false, none, none, dt 12 16 45, dt 12 16 45⟩,
    ⟨gen 4, "Write comprehensive tests", .medium, false, none, none, dt 11 11 15, dt 11 11 15⟩,
    ⟨gen 5, "Deploy to production", .high, true, none, none, dt 10 8 0, dt 14 15 30⟩,
    ⟨gen 6, "Optimize performance and bundle size", .medium, false, none, none, dt 9 13 30, dt 9 13 30⟩,
    ⟨gen 7, "Add keyboard shortcuts for power users", .low, false, none, none, dt 8 10 45, dt 8 10 45⟩ ]

/-- The auto-seed guard that every in-memory operation of database.py
performs: if not _todos_db, initialize_sample_data(). -/
def seedIfEmpty (gen : Nat → String) (s : List Todo) : List Todo :=
  if s.isEmpty then initializeSampleData gen else s

/-- get_todos, in-memory branch: seed on empty, return a copy of the
whole list together with the (possibly seeded) state. -/
def getTodos (gen : Nat → String) (s : List Todo) : List Todo × List Todo :=
  let s1 := seedIfEmpty gen s
  (s1, s1)

/-- Linear scan for the first todo with the given id, as the for loop of
get_todo_by_id. -/
def findTodo (todoId : String) : List Todo → Option Todo
  | [] => none
  | t :: ts => if t.id = todoId then some t else findTodo todoId ts

/-- get_todo_by_id, in-memory branch: seed on empty, then first match or
none. -/
def getTodoById (gen : Nat → String) (todoId : String) (s : List Todo) :
    Option Todo × List Todo :=
  let s1 := seedIfEmpty gen s
  (findTodo todoId s1, s1)

/-- create_todo, in-memory branch. newId models _generate_id(); now1 and
now2 model the two separate _get_current_timestamp() calls that fill
created_at and updated_at (lines 213-214). The Todo(...) call passes no
due_date or reminder_time, so the stored todo has both absent whatever
the payload carried. -/
def createTodo (gen : Nat → String) (newId : String) (now1 now2 : Nat)
    (p : TodoCreate) (s : List Todo) : Todo × List Todo :=
  let s1 := seedIfEmpty gen s
  let newTodo : Todo :=
    ⟨newId, p.text, p.priority, p.completed, none, none, now1, now2⟩
  (newTodo, s1 ++ [newTodo])

/-- The replacement Todo built inside update_todo (lines 246-253):
payload fields when present, the old todo's otherwise, except that the
constructor call omits due_date and reminder_time (so both become
absent), keeps created_at, and stamps updated_at with now. -/
def applyUpdateFields (now : Nat) (u : TodoUpdate) (t : Todo) : Todo :=
  ⟨t.id, u.text.getD t.text, u.priority.getD t.priority,
    u.completed.getD t.completed, none, none, t.created_at, now⟩

/-- The enumerate-and-replace loop of update_todo: replace the first
todo whose id matches, returning the replacement and the new list, or
none when no id matches. -/
def updateInList (now : Nat) (u : TodoUpdate) (todoId : String) :
    List Todo → Option (Todo × List Todo)
  | [] => none
  | t :: ts =>
      if t.id = todoId then
        let t2 := applyUpdateFields now u t
        some (t2, t2 :: ts)
      else
        match updateInList now u todoId ts with
        | some (r, ts2) => some (r, t :: ts2)
        | none => none

/-- update_todo, in-memory branch: seed on empty, replace first match,
ValueError when the id is absent. -/
def updateTodo (gen : Nat → String) (now : Nat) (todoId : String)
    (u : TodoUpdate) (s : List Todo) : Except String Todo × List Todo :=
  let s1 := seedIfEmpty gen s
  match updateInList now u todoId s1 with
  | some (r, s2) => (Except.ok r, s2)
  | none => (Except.error ("Todo with id " ++ todoId ++ " not found"), s1)

/-- The delete loop of delete_todo: remove the first todo whose id
matches, or none when no id matches. -/
def deleteInList (todoId : String) : List Todo → Option (List Todo)
  | [] => none
  | t :: ts =>
      if t.id = todoId then some ts
      else
        match deleteInList todoId ts with
        | some ts2 => some (t :: ts2)
        | none => none

/-- delete_todo, in-memory branch: seed on empty, remove first match and
return true, otherwise false without raising. -/
def deleteTodo (gen : Nat → String) (todoId : String) (s : List Todo) :
    Bool × List Todo :=
  let s1 := seedIfEmpty gen s
  match deleteInList todoId s1 with
  | some s2 => (true, s2)
  | none => (false, s1)

/-- clear_completed_todos, in-memory branch: seed on empty, keep the
non-completed todos, return how many were dropped. -/
def clearCompletedTodos (gen : Nat → String) (s : List Todo) :
    Nat × List Todo :=
  let s1 := seedIfEmpty gen s
  let s2 := s1.filter (fun t => !t.completed)
  (s1.length - s2.length, s2)

/-- get_todos_count, in-memory branch: seed on empty, return the
length. -/
def getTodosCount (gen : Nat → String) (s : List Todo) : Nat × List Todo :=
  let s1 := seedIfEmpty gen s
  (s1.length, s1)

/-- A row of the todos table (orm_models.py TodoORM): priority stored as
its string value, due_date and reminder_time nullable columns. -/
structure TodoRow where
  id : String
  text : String
  priority : String
  completed : Bool
  due_date : Option Nat
  reminder_time : Option Nat
  created_at : Nat
  updated_at : Nat
deriving DecidableEq

/-- Parse a priority string back into the enum, as Priority(value) in
models.py does (failing on anything but the three enum values). -/
def parsePriority (v : String) : Option Priority :=
  if v = "low" then some .low
  else if v = "medium" then some .medium
  else if v = "high" then some .high
  else none

/-- _to_model in database.py: map a row back to the Todo model. The
constructor call passes neither due_date nor reminder_time, so the
returned model always has both absent; Priority(row.priority) raises on
an unknown string, modelled as none. -/
def toModel (r : TodoRow) : Option Todo :=
  (parsePriority r.priority).map fun p =>
    ⟨r.id, r.text, p, r.completed, none, none, r.created_at, r.updated_at⟩

/-- get_todos, persistent branch: select every row and map it through
_to_model. This branch performs no auto-seed check. -/
def dbGetTodos (rows : List TodoRow) : Option (List Todo) :=
  rows.mapM toModel

/-- get_todos_count, persistent branch: count the rows, again with no
auto-seed check. -/
def dbGetTodosCount (rows : List TodoRow) : Nat :=
  rows.length

/-- The statistics record assembled by the /api/todos/stats/summary
handler in main.py. -/
structure TodoStats where
  total : Nat
  active : Nat
  completed : Nat
  completion_rate : ℚ
  high_count : Nat
  medium_count : Nat
  low_count : Nat
  overdue_count : Nat
  due_today_count : Nat
  upcoming_count : Nat
deriving DecidableEq

/-- Round to two decimal places, as round(x, 2) in get_todos_stats. -/
def roundTo2 (x : ℚ) : ℚ :=
  ((round (x * 100) : ℤ) : ℚ) / 100

/-- get_todos_stats in main.py over a snapshot of todos, with today as
an explicit parameter: counts, completion rate guarded against an empty
list, per-priority counts comparing the str-enum value against the
literal strings, and the due-date buckets over non-completed todos. -/
def getTodosStats (today : Nat) (todos : List Todo) : TodoStats :=
  let total := todos.length
  let completed := (todos.filter fun t => t.completed).length
  let active := total - completed
  let completion_rate : ℚ :=
    if 0 < total then roundTo2 ((completed : ℚ) / (total : ℚ) * 100) else 0
  { total := total
    active := active
    completed := completed
    completion_rate := completion_rate
    high_count := (todos.filter fun t => t.priority.str == "high").length
    medium_count := (todos.filter fun t => t.priority.str == "medium").length
    low_count := (todos.filter fun t => t.priority.str == "low").length
    overdue_count := (todos.filter fun t =>
      !t.completed && (match t.due_date with
        | some d => decide (d < today)
        | none => false)).length
    due_today_count := (todos.filter fun t =>
      !t.completed && (match t.due_date with
        | some d => decide (d = today)
        | none => false)).length
    upcoming_count := (todos.filter fun t =>
      !t.completed && (match t.due_date with
        | some d => decide (today < d ∧ d ≤ today + 7)
        | none => false)).length }

/-- Bool test for one character list being a prefix of another, used to
express Python substring containment. -/
def charsPre : List Char → List Char → Bool
  | [], _ => true
  | _ :: _, [] => false
  | a :: as, b :: bs => a = b && charsPre as bs

/-- Bool test for one character list occurring inside another, the
meaning of the Python in operator on strings. -/
def charsSub (needle : List Char) : List Char → Bool
  | [] => needle.isEmpty
  | b :: bs => charsPre needle (b :: bs) || charsSub needle bs

/-- The filtering block of the get_todos_endpoint handler (main.py lines
79-91): completion filter (exactly "active" or "completed", anything
else leaves the list alone), then truthy search (case-insensitive
substring), then truthy priority (str-enum value equality). -/
def applyTodoFilters (filt search prio : Option String)
    (todos : List Todo) : List Todo :=
  let t1 :=
    if filt = some "active" then todos.filter fun t => !t.completed
    else if filt = some "completed" then todos.filter fun t => t.completed
    else todos
  let t2 :=
    match search with
    | none => t1
    | some q =>
        if q = "" then t1
        else t1.filter fun t => charsSub q.toLower.data t.text.toLower.data
  match prio with
  | none => t2
  | some p =>
      if p = "" then t2
      else t2.filter fun t => t.priority.str = p

/-- A raw creation payload before pydantic validation: the JSON-level
fields of TodoCreate, priority still a string when given. -/
structure RawTodoCreate where
  text : String
  priority : Option String := none
  completed : Option Bool := none
  due_date : Option Nat := none
  reminder_time : Option Nat := none
deriving DecidableEq

/-- Pydantic validation of a creation payload, following TodoBase in
models.py in field order: text length 1..500, priority one of the three
enum values (defaulting to medium), the due_date validator rejecting
dates before today, and the reminder_time validator rejecting a reminder
whose payload has no due_date. -/
def validateCreate (today : Nat) (r : RawTodoCreate) :
    Except String TodoCreate :=
  if r.text.length < 1 then
    Except.error "text: ensure this value has at least 1 characters"
  else if 500 < r.text.length then
    Except.error "text: ensure this value has at most 500 characters"
  else
    match (match r.priority with
           | none => some Priority.medium
           | some pv => parsePriority pv) with
    | none => Except.error "priority: value is not a valid enumeration member"
    | some p =>
        if (match r.due_date with
            | some d => decide (d < today)
            | none => false) then
          Except.error "due_date: Due date cannot be in the past"
        else if r.reminder_time.isSome && r.due_date.isNone then
          Except.error "reminder_time: Reminder time requires a due date to be set"
        else
          Except.ok ⟨r.text, p, r.completed.getD false, r.due_date, r.reminder_time⟩

/-- Bool view of an Except being an error. -/
def isErr {ε α : Type} : Except ε α → Bool
  | .error _ => true
  | .ok _ => false

/-- The POST /api/todos path: pydantic validates the payload before the
handler runs, so a validation failure produces an error with the store
untouched, and only a validated payload reaches create_todo. -/
def createTodoEndpoint (gen : Nat → String) (newId : String)
    (now1 now2 today : Nat) (r : RawTodoCreate) (s : List Todo) :
    Except String Todo × List Todo :=
  match validateCreate today r with
  | .error e => (Except.error e, s)
  | .ok p =>
      let res := createTodo gen newId now1 now2 p s
      (Except.ok res.1, res.2)

/-- A concrete uuid stream for witnesses and counterexamples. -/
def demoGen (n : Nat) : String := "todo-" ++ toString n

/-- A concrete stored todo with no scheduling fields. -/
def demoPlain : Todo :=
  ⟨"t1", "Existing item", .medium, false, none, none, 1, 1⟩

/-- A concrete stored todo carrying due_date and reminder_time. -/
def demoScheduled : Todo :=
  ⟨"t9", "Water plants", .low, false, some 300, some 60, 5, 5⟩

/-- A creation payload that supplies due_date and reminder_time. -/
def demoPayload : TodoCreate :=
  ⟨"Buy milk", .high, false, some 200, some 540⟩

/-- A partial update payload setting only completed. -/
def onlyCompleted : TodoUpdate :=
  ⟨none, none, some true, none, none⟩

/-- A raw creation payload with a reminder_time but no due_date. -/
def demoRawReminder : RawTodoCreate :=
  ⟨"Call mom", none, none, none, some 540⟩

lemma seedIfEmpty_of_ne_nil (gen : Nat → String) {s : List Todo} (h : s ≠ []) :
    seedIfEmpty gen s = s := by
  cases s with
  | nil => exact absurd rfl h
  | cons t ts => rfl

lemma findTodo_eq_none (todoId : String) :
    ∀ (s : List Todo), todoId ∉ s.map Todo.id → findTodo todoId s = none := by
  intro s
  induction s with
  | nil => intro _; rfl
  | cons t ts ih =>
      intro h
      simp only [List.map_cons, List.mem_cons] at h
      push_neg at h
      simp only [findTodo]
      rw [if_neg fun he => h.1 he.symm]
      exact ih h.2

lemma updateInList_eq_none (now : Nat) (u : TodoUpdate) (todoId : String) :
    ∀ (s : List Todo), todoId ∉ s.map Todo.id →
      updateInList now u todoId s = none := by
  intro s
  induction s with
  | nil => intro _; rfl
  | cons t ts ih =>
      intro h
      simp only [List.map_cons, List.mem_cons] at h
      push_neg at h
      simp only [updateInList]
      rw [if_neg fun he => h.1 he.symm, ih h.2]

lemma deleteInList_eq_none (todoId : String) :
    ∀ (s : List Todo), todoId ∉ s.map Todo.id →
      deleteInList todoId s = none := by
  intro s
  induction s with
  | nil => intro _; rfl
  | cons t ts ih =>
      intro h
      simp only [List.map_cons, List.mem_cons] at h
      push_neg at h
      simp only [deleteInList]
      rw [if_neg fun he => h.1 he.symm, ih h.2]

lemma deleteInList_of_mem (todoId : String) :
    ∀ (s : List Todo), (s.map Todo.id).Nodup → todoId ∈ s.map Todo.id →
      ∃ s2, deleteInList todoId s = some s2 ∧ todoId ∉ s2.map Todo.id ∧
        s2.length + 1 = s.length := by
  intro s
  induction s with
  | nil => intro _ hm; simp at hm
  | cons t ts ih =>
      intro hnd hm
      simp only [List.map_cons, List.nodup_cons] at hnd
      simp only [List.map_cons, List.mem_cons] at hm
      by_cases he : t.id = todoId
      · refine ⟨ts, ?_, ?_, by simp⟩
        · simp only [deleteInList, if_pos he]
        · rw [← he]; exact hnd.1
      · rcases hm with hm1 | hm2
        · exact absurd hm1.symm he
        · obtain ⟨s2, hdel, hnot, hlen⟩ := ih hnd.2 hm2
          refine ⟨t :: s2, ?_, ?_, ?_⟩
          · simp only [deleteInList, if_neg he, hdel]
          · simp only [List.map_cons, List.mem_cons]
            push_neg
            exact ⟨fun hx => he hx.symm, hnot⟩
          · simp only [List.length_cons]
            omega

lemma updateInList_of_find (now : Nat) (u : TodoUpdate) (todoId : String) :
    ∀ (s : List Todo) (t : Todo), findTodo todoId s = some t →
      ∃ s2, updateInList now u todoId s = some (applyUpdateFields now u t, s2) ∧
        findTodo todoId s2 = some (applyUpdateFields now u t) ∧
        s2.length = s.length := by
  intro s
  induction s with
  | nil => intro t h; simp [findTodo] at h
  | cons t0 ts ih =>
      intro t h
      by_cases he : t0.id = todoId
      · rw [findTodo, if_pos he, Option.some.injEq] at h
        subst h
        refine ⟨applyUpdateFields now u t0 :: ts, ?_, ?_, rfl⟩
        · simp only [updateInList, if_pos he]
        · have hid : (applyUpdateFields now u t0).id = t0.id := rfl
          rw [findTodo, hid, if_pos he]
      · rw [findTodo, if_neg he] at h
        obtain ⟨s2, hup, hfind, hlen⟩ := ih t h
        refine ⟨t0 :: s2, ?_, ?_, ?_⟩
        · simp only [updateInList, if_neg he, hup]
        · rw [findTodo, if_neg he]
          exact hfind
        · simp only [List.length_cons, hlen]

lemma validateCreate_ok_facts {today : Nat} {r : RawTodoCreate} {p : TodoCreate}
    (h : validateCreate today r = Except.ok p) :
    r.text ≠ "" ∧ r.text.length ≤ 500 ∧
    (∀ pv, r.priority = some pv → parsePriority pv ≠ none) ∧
    (∀ d, r.due_date = some d → ¬ d < today) ∧
    ¬(r.reminder_time.isSome ∧ r.due_date = none) := by
  unfold validateCreate at h
  split at h
  · exact absurd h (by simp)
  next h1 =>
    split at h
    · exact absurd h (by simp)
    next h2 =>
      split at h
      · exact absurd h (by simp)
      next p0 hp0 =>
        split at h
        · exact absurd h (by simp)
        next h3 =>
          split at h
          · exact absurd h (by simp)
          next h4 =>
            refine ⟨?_, ?_, ?_, ?_, ?_⟩
            · intro he
              apply h1
              simp [he]
            · omega
            · intro pv hpv hparse
              rw [hpv] at hp0
              simp [hparse] at hp0
            · intro d hd hlt
              apply h3
              rw [hd]
              simpa using hlt
            · intro hx
              apply h4
              rw [hx.2]
              simp [hx.1]

lemma strBeqLowHigh : (Priority.str .low == "high") = false := rfl

lemma strBeqLowMedium : (Priority.str .low == "medium") = false := rfl

lemma strBeqLowLow : (Priority.str .low == "low") = true := rfl

lemma strBeqMediumHigh : (Priority.str .medium == "high") = false := rfl

lemma strBeqMediumMedium : (Priority.str .medium == "medium") = true := rfl

lemma strBeqMediumLow : (Priority.str .medium == "low") = false := rfl

lemma strBeqHighHigh : (Priority.str .high == "high") = true := rfl

lemma strBeqHighMedium : (Priority.str .high == "medium") = false := rfl

lemma strBeqHighLow : (Priority.str .high == "low") = false := rfl

lemma countPrioritySplit (todos : List Todo) :
    (todos.filter fun t => t.priority.str == "high").length
      + (todos.filter fun t => t.priority.str == "medium").length
      + (todos.filter fun t => t.priority.str == "low").length
      = todos.length := by
  induction todos with
  | nil => rfl
  | cons t ts ih =>
      cases hp : t.priority <;>
        simp [List.filter_cons, hp, strBeqLowHigh, strBeqLowMedium,
          strBeqLowLow, strBeqMediumHigh, strBeqMediumMedium, strBeqMediumLow,
          strBeqHighHigh, strBeqHighMedium, strBeqHighLow] <;>
        omega

/-- Claim C1 (status code_bug, evaluation at the failing input): the
in-memory create_todo discards the payload's due_date and reminder_time
(the Todo constructor call omits both fields), and fills created_at and
updated_at from two separate clock reads, so they differ whenever the
clock advances between them — against the spec, which requires the
returned Todo to carry the payload's values and created_at equal to
updated_at. -/
theorem c1_create_drops_schedule_fields :
    demoPayload.due_date = some 200
    ∧ demoPayload.reminder_time = some 540
    ∧ (createTodo demoGen "id-new" 10 11 demoPayload [demoPlain]).1.due_date = none
    ∧ (createTodo demoGen "id-new" 10 11 demoPayload [demoPlain]).1.reminder_time = none
    ∧ (createTodo demoGen "id-new" 10 11 demoPayload [demoPlain]).1.created_at = 10
    ∧ (createTodo demoGen "id-new" 10 11 demoPayload [demoPlain]).1.updated_at = 11
    ∧ (createTodo demoGen "id-new" 10 11 demoPayload [demoPlain]).1.text = "Buy milk"
    ∧ (createTodo demoGen "id-new" 10 11 demoPayload [demoPlain]).1.priority = Priority.high :=
  ⟨rfl, rfl, rfl, rfl, rfl, rfl, rfl, rfl⟩

/-- Claim C2 (status code_bug, evaluation at the failing input): the
in-memory update_todo rebuilds the stored Todo without passing due_date
or reminder_time, so an update whose payload sets only completed resets
both scheduling fields to absent even though they were not in the
payload — against the spec's frame rule that unset fields are left
untouched. Text and priority are correctly preserved. -/
theorem c2_update_clears_schedule_fields :
    demoScheduled.due_date = some 300
    ∧ demoScheduled.reminder_time = some 60
    ∧ (updateTodo demoGen 7 "t9" onlyCompleted [demoScheduled]).1
        = Except.ok (applyUpdateFields 7 onlyCompleted demoScheduled)
    ∧ (applyUpdateFields 7 onlyCompleted demoScheduled).due_date = none
    ∧ (applyUpdateFields 7 onlyCompleted demoScheduled).reminder_time = none
    ∧ (applyUpdateFields 7 onlyCompleted demoScheduled).text = demoScheduled.text
    ∧ (applyUpdateFields 7 onlyCompleted demoScheduled).priority = demoScheduled.priority
    ∧ (applyUpdateFields 7 onlyCompleted demoScheduled).completed = true :=
  ⟨rfl, rfl, rfl, rfl, rfl, rfl, rfl, rfl⟩

/-- Claim C3 (status code_bug, evaluation at the failing input): the two
backends are not observationally equivalent. On an empty collection the
in-memory get_todos and get_todos_count auto-seed and report the eight
sample todos, while the persistent branches return no rows and count 0 —
no auto-seed check exists on the persistent paths. -/
theorem c3_backends_diverge_on_empty :
    dbGetTodos [] = some []
    ∧ dbGetTodosCount [] = 0
    ∧ (getTodos demoGen []).1.length = 8
    ∧ (getTodos demoGen []).1 ≠ []
    ∧ getTodosCount demoGen [] = (8, initializeSampleData demoGen) := by
  refine ⟨rfl, rfl, rfl, ?_, rfl⟩
  simp [getTodos, seedIfEmpty, initializeSampleData]

/-- Claim C10: in the stats summary the per-priority counts for high,
medium and low always sum to the total, because every todo's priority is
exactly one of the three enum values. -/
theorem c10_priority_breakdown_sums_to_total (today : Nat) (todos : List Todo) :
    (getTodosStats today todos).high_count
      + (getTodosStats today todos).medium_count
      + (getTodosStats today todos).low_count
      = (getTodosStats today todos).total :=
  countPrioritySplit todos

/-- Claim C4: for an id not present in the store, get returns none,
update fails with the not-found error and delete returns false leaving
the store unchanged; and after a successful delete of a (unique) present
id, deleting it again returns false. -/
theorem c4_missing_id_behaviour (gen gen2 : Nat → String) (now : Nat)
    (u : TodoUpdate) (s : List Todo) (idA idB : String)
    (hne : s ≠ [])
    (houtA : idA ∉ s.map Todo.id)
    (hnodup : (s.map Todo.id).Nodup)
    (hinB : idB ∈ s.map Todo.id)
    (hlen : 2 ≤ s.length) :
    (getTodoById gen idA s).1 = none
    ∧ (updateTodo gen now idA u s).1
        = Except.error ("Todo with id " ++ idA ++ " not found")
    ∧ deleteTodo gen idA s = (false, s)
    ∧ (deleteTodo gen idB s).1 = true
    ∧ (deleteTodo gen2 idB (deleteTodo gen idB s).2).1 = false := by
  have hseed : seedIfEmpty gen s = s := seedIfEmpty_of_ne_nil gen hne
  obtain ⟨s2, hdel, hnot2, hlen2⟩ := deleteInList_of_mem idB s hnodup hinB
  have h2ne : s2 ≠ [] := by
    intro hn
    rw [hn] at hlen2
    simp at hlen2
    omega
  refine ⟨?_, ?_, ?_, ?_, ?_⟩
  · simp [getTodoById, hseed, findTodo_eq_none idA s houtA]
  · simp [updateTodo, hseed, updateInList_eq_none now u idA s houtA]
  · simp [deleteTodo, hseed, deleteInList_eq_none idA s houtA]
  · simp [deleteTodo, hseed, hdel]
  · have hst : (deleteTodo gen idB s).2 = s2 := by
      simp [deleteTodo, hseed, hdel]
    rw [hst]
    have hseed2 : seedIfEmpty gen2 s2 = s2 := seedIfEmpty_of_ne_nil gen2 h2ne
    simp [deleteTodo, hseed2, deleteInList_eq_none idB s2 hnot2]

/-- Witness for C4 on a concrete two-element store. -/
theorem c4_missing_id_behaviour_witness :
    (getTodoById demoGen "zzz" [demoPlain, demoScheduled]).1 = none
    ∧ deleteTodo demoGen "zzz" [demoPlain, demoScheduled]
        = (false, [demoPlain, demoScheduled])
    ∧ (deleteTodo demoGen "t1" [demoPlain, demoScheduled]).1 = true
    ∧ (deleteTodo demoGen "t1"
        (deleteTodo demoGen "t1" [demoPlain, demoScheduled]).2).1 = false := by
  have h := c4_missing_id_behaviour demoGen demoGen 7 {} [demoPlain, demoScheduled]
    "zzz" "t1" (by decide) (by decide) (by decide) (by decide) (by decide)
  exact ⟨h.1, h.2.2.1, h.2.2.2.1, h.2.2.2.2⟩

/-- Claim C5: stats satisfies active + completed = total for every input
including the empty list, the completion rate of the empty list is 0
with no division performed, and for non-empty input the completion rate
is completed over total times 100 rounded to two decimal places. -/
theorem c5_stats_counts (today : Nat) (todos : List Todo) (hne : todos ≠ []) :
    (getTodosStats today todos).active + (getTodosStats today todos).completed
        = (getTodosStats today todos).total
    ∧ (getTodosStats today []).completion_rate = 0
    ∧ (getTodosStats today []).active + (getTodosStats today []).completed
        = (getTodosStats today []).total
    ∧ (getTodosStats today todos).completion_rate
        = roundTo2 (((getTodosStats today todos).completed : ℚ)
            / ((getTodosStats today todos).total : ℚ) * 100) := by
  refine ⟨Nat.sub_add_cancel (List.length_filter_le _ _), rfl, rfl, ?_⟩
  have hpos : 0 < todos.length := List.length_pos.mpr hne
  simp only [getTodosStats, if_pos hpos]

/-- Witness for C5 on a concrete one-element store. -/
theorem c5_stats_counts_witness :
    (getTodosStats 7 [demoPlain]).active + (getTodosStats 7 [demoPlain]).completed
        = (getTodosStats 7 [demoPlain]).total
    ∧ (getTodosStats 7 []).completion_rate = 0 := by
  have h := c5_stats_counts 7 [demoPlain] (by decide)
  exact ⟨h.1, h.2.1⟩

/-- Claim C6: the endpoint's completion filter with value "active"
returns exactly the todos with completed = false, and any value other
than exactly "active" or "completed" leaves the input unchanged; the
input list itself is never mutated (the filters build new lists). -/
theorem c6_completion_filter (todos : List Todo) (f : String)
    (h1 : f ≠ "active") (h2 : f ≠ "completed") :
    applyTodoFilters (some "active") none none todos
        = todos.filter (fun t => !t.completed)
    ∧ applyTodoFilters (some f) none none todos = todos := by
  constructor
  · rfl
  · simp [applyTodoFilters, h1, h2]

/-- Witness for C6 with the unrecognized value "bogus". -/
theorem c6_completion_filter_witness :
    applyTodoFilters (some "active") none none [demoPlain, demoScheduled]
        = [demoPlain, demoScheduled].filter (fun t => !t.completed)
    ∧ applyTodoFilters (some "bogus") none none [demoPlain, demoScheduled]
        = [demoPlain, demoScheduled] :=
  c6_completion_filter [demoPlain, demoScheduled] "bogus" (by decide) (by decide)

/-- Claim C7: a successful update stamps updated_at with the clock value
now, strictly above the previous updated_at under a monotonic clock, and
leaves created_at unchanged; a second successful update under a clock
that moved on again yields an updated_at that did not decrease (it grew
again), so updated_at never decreases across successive writes. -/
theorem c7_update_timestamps (gen : Nat → String) (now now2 : Nat)
    (u u2 : TodoUpdate) (todoId : String) (s : List Todo) (t : Todo)
    (hne : s ≠ [])
    (hfind : findTodo todoId s = some t)
    (hnow : t.updated_at < now)
    (hnow2 : now < now2) :
    (updateTodo gen now todoId u s).1
        = Except.ok (applyUpdateFields now u t)
    ∧ (applyUpdateFields now u t).created_at = t.created_at
    ∧ t.updated_at < (applyUpdateFields now u t).updated_at
    ∧ (updateTodo gen now2 todoId u2 ((updateTodo gen now todoId u s).2)).1
        = Except.ok (applyUpdateFields now2 u2 (applyUpdateFields now u t))
    ∧ (applyUpdateFields now2 u2 (applyUpdateFields now u t)).created_at
        = t.created_at
    ∧ (applyUpdateFields now u t).updated_at
        < (applyUpdateFields now2 u2 (applyUpdateFields now u t)).updated_at := by
  have hseed : seedIfEmpty gen s = s := seedIfEmpty_of_ne_nil gen hne
  obtain ⟨s2, hup, hfind2, hlen2⟩ := updateInList_of_find now u todoId s t hfind
  have h2ne : s2 ≠ [] := by
    intro hn
    rw [hn] at hlen2
    cases s with
    | nil => exact hne rfl
    | cons a as => simp at hlen2
  have hstate : (updateTodo gen now todoId u s).2 = s2 := by
    simp [updateTodo, hseed, hup]
  have hseed2 : seedIfEmpty gen s2 = s2 := seedIfEmpty_of_ne_nil gen h2ne
  obtain ⟨s3, hup2, _, _⟩ :=
    updateInList_of_find now2 u2 todoId s2 (applyUpdateFields now u t) hfind2
  refine ⟨?_, rfl, hnow, ?_, rfl, hnow2⟩
  · simp [updateTodo, hseed, hup]
  · rw [hstate]
    simp [updateTodo, hseed2, hup2]

/-- Witness for C7 on a concrete one-element store. -/
theorem c7_update_timestamps_witness :
    (updateTodo demoGen 5 "t1" onlyCompleted [demoPlain]).1
        = Except.ok (applyUpdateFields 5 onlyCompleted demoPlain)
    ∧ (applyUpdateFields 5 onlyCompleted demoPlain).created_at
        = demoPlain.created_at
    ∧ demoPlain.updated_at
        < (applyUpdateFields 5 onlyCompleted demoPlain).updated_at := by
  have h := c7_update_timestamps demoGen 5 9 onlyCompleted onlyCompleted "t1"
    [demoPlain] demoPlain (by decide) rfl (by decide) (by decide)
  exact ⟨h.1, h.2.1, h.2.2.1⟩

/-- Claim C8: a creation payload violating any field constraint (empty
or over-500-character text, invalid priority token, due_date before
today, or reminder_time without due_date) is rejected by validation
before create_todo runs, so the endpoint reports an error and the store
is unchanged. -/
theorem c8_validation_rejects_before_write (gen : Nat → String)
    (newId : String) (now1 now2 today : Nat) (r : RawTodoCreate)
    (s : List Todo)
    (h : r.text = "" ∨ 500 < r.text.length
        ∨ (∃ pv, r.priority = some pv ∧ parsePriority pv = none)
        ∨ (∃ d, r.due_date = some d ∧ d < today)
        ∨ (r.reminder_time.isSome ∧ r.due_date = none)) :
    isErr (createTodoEndpoint gen newId now1 now2 today r s).1 = true
    ∧ (createTodoEndpoint gen newId now1 now2 today r s).2 = s := by
  cases hval : validateCreate today r with
  | error e => simp [createTodoEndpoint, hval, isErr]
  | ok p =>
      exfalso
      obtain ⟨f1, f2, f3, f4, f5⟩ := validateCreate_ok_facts hval
      rcases h with h | h | ⟨pv, hpv, hparse⟩ | ⟨d, hd, hlt⟩ | h
      · exact f1 h
      · omega
      · exact f3 pv hpv hparse
      · exact f4 d hd hlt
      · exact f5 h

/-- Witness for C8: a payload with reminder_time set and due_date
omitted is rejected and the store is untouched. -/
theorem c8_validation_rejects_before_write_witness :
    (demoRawReminder.reminder_time.isSome ∧ demoRawReminder.due_date = none)
    ∧ isErr (createTodoEndpoint demoGen "id-z" 3 4 100 demoRawReminder
        [demoPlain]).1 = true
    ∧ (createTodoEndpoint demoGen "id-z" 3 4 100 demoRawReminder
        [demoPlain]).2 = [demoPlain] := by
  have h := c8_validation_rejects_before_write demoGen "id-z" 3 4 100
    demoRawReminder [demoPlain]
    (Or.inr (Or.inr (Or.inr (Or.inr ⟨by decide, rfl⟩))))
  exact ⟨⟨by decide, rfl⟩, h.1, h.2⟩

/-- Claim C9: every in-memory store operation seeds the fixed sample
dataset when it observes an empty collection: list returns the eight
sample todos, count reports 8, get scans them, create appends to them,
update fails against them with not-found for an unknown id, delete
returns false leaving them stored, and clear-completed removes the two
completed samples. -/
theorem c9_every_op_seeds_on_empty (gen : Nat → String) (newId : String)
    (now now1 now2 : Nat) (p : TodoCreate) (u : TodoUpdate) (idq : String)
    (hid : idq ∉ (initializeSampleData gen).map Todo.id) :
    getTodos gen [] = (initializeSampleData gen, initializeSampleData gen)
    ∧ getTodosCount gen [] = (8, initializeSampleData gen)
    ∧ getTodoById gen idq [] = (none, initializeSampleData gen)
    ∧ (createTodo gen newId now1 now2 p []).2
        = initializeSampleData gen
            ++ [⟨newId, p.text, p.priority, p.completed, none, none, now1, now2⟩]
    ∧ updateTodo gen now idq u []
        = (Except.error ("Todo with id " ++ idq ++ " not found"),
            initializeSampleData gen)
    ∧ deleteTodo gen idq [] = (false, initializeSampleData gen)
    ∧ clearCompletedTodos gen []
        = (2, (initializeSampleData gen).filter fun t => !t.completed)
    ∧ initializeSampleData gen ≠ [] := by
  have hseed : seedIfEmpty gen [] = initializeSampleData gen := rfl
  refine ⟨rfl, rfl, ?_, rfl, ?_, ?_, rfl, ?_⟩
  · simp [getTodoById, hseed, findTodo_eq_none idq _ hid]
  · simp [updateTodo, hseed, updateInList_eq_none now u idq _ hid]
  · simp [deleteTodo, hseed, deleteInList_eq_none idq _ hid]
  · simp [initializeSampleData]

/-- Witness for C9 with a concrete uuid stream and an unknown id. -/
theorem c9_every_op_seeds_on_empty_witness :
    deleteTodo demoGen "missing" [] = (false, initializeSampleData demoGen)
    ∧ getTodosCount demoGen [] = (8, initializeSampleData demoGen)
    ∧ initializeSampleData demoGen ≠ [] := by
  have h := c9_every_op_seeds_on_empty demoGen "id-new" 7 8 9 {text := "x"} {}
    "missing" (by decide)
  exact ⟨h.2.2.2.2.2.1, h.2.1, h.2.2.2.2.2.2.2⟩

end SpicyTodo
